import Mathlib

/-!
# Shallow embedding of the Monitoring-dan-Logging repository

This file embeds the two Python source files of the repository:

* `7.inference.py` — a Flask proxy in front of an MLflow model-serving
  endpoint, with Prometheus metrics (`PREDICTIONS_TOTAL` counter,
  `PREDICTION_DURATION_SECONDS` histogram, `MLFLOW_SERVE_STATUS` gauge)
  and three routes: `POST /predict`, `GET /metrics`, `GET /health`.
* `3.prometheus_exporter.py` — a probe that loads a fixed sample input,
  calls the backend, normalizes the response, and publishes
  `LAST_PREDICTION_VALUE`, `LATENCY_EXPORTER` and
  `MLFLOW_SERVE_STATUS_EXPORTER` gauges from an infinite 15s loop.

External effects (the HTTP backend, the file system, wall-clock time) are
passed in as explicit oracle values; Python exceptions are modelled with
`Except`; Python floats are modelled as rationals `ℚ`.
-/

/-- A JSON value, as produced by `response.json()` / `request.json` /
`json.load` in the Python sources.  Python floats and ints are both
modelled as `ℚ`. -/
inductive Json where
  | null
  | bool (b : Bool)
  | num (q : ℚ)
  | str (s : String)
  | arr (elems : List Json)
  | obj (fields : List (String × Json))

/-- The kinds of Python exception that the modelled code can raise and
catch.  `badRequest` stands for the `werkzeug` `BadRequest` raised by
Flask's `request.json` on a missing/unparsable body. -/
inductive PyErr where
  | typeError
  | valueError
  | indexError
  | keyError
  | badRequest
deriving DecidableEq, Repr

/-- Digits-to-number accumulator used by the model of Python `float(str)`. -/
def natOfDigits (cs : List Char) : ℕ :=
  cs.foldl (fun a c => a * 10 + (c.toNat - 48)) 0

/-- Fractional part `.d₁d₂…dₙ` as a rational. -/
def fracOfDigits (cs : List Char) : ℚ :=
  (natOfDigits cs : ℚ) / (10 ^ cs.length)

/-- Parse an unsigned decimal literal (`"12"`, `"1.5"`, `".5"`, `"2."`).
Anything else fails, matching Python `float(str)` raising `ValueError`
(exponents / `inf` / `nan` are outside the shapes this program meets). -/
def parseDecimalChars (cs : List Char) : Option ℚ :=
  let intPart := cs.takeWhile Char.isDigit
  let rest := cs.dropWhile Char.isDigit
  match rest with
  | [] => if intPart.isEmpty then none else some (natOfDigits intPart : ℚ)
  | '.' :: frac =>
    if frac.all Char.isDigit && (!intPart.isEmpty || !frac.isEmpty) then
      some ((natOfDigits intPart : ℚ) + fracOfDigits frac)
    else none
  | _ => none

/-- Strip leading and trailing whitespace from a character list — the
stripping Python `float(str)` performs on its argument. -/
def stripChars (cs : List Char) : List Char :=
  ((cs.dropWhile Char.isWhitespace).reverse.dropWhile
    Char.isWhitespace).reverse

/-- Model of Python `float(s)` on a string: optional sign, then a plain
decimal literal; whitespace around the literal is stripped. -/
def pyParseFloat (s : String) : Option ℚ :=
  match stripChars s.data with
  | '-' :: cs => (parseDecimalChars cs).map (fun q => -q)
  | '+' :: cs => parseDecimalChars cs
  | cs => parseDecimalChars cs

/-- Model of Python `float(v)` on an arbitrary value: numbers and booleans
convert, numeric strings parse, everything else raises (`TypeError` for
non-strings, `ValueError` for non-numeric strings). -/
def pyFloat : Json → Except PyErr ℚ
  | Json.num q => Except.ok q
  | Json.bool b => Except.ok (if b then 1 else 0)
  | Json.str s =>
    match pyParseFloat s with
    | some q => Except.ok q
    | none => Except.error PyErr.valueError
  | Json.null => Except.error PyErr.typeError
  | Json.arr _ => Except.error PyErr.typeError
  | Json.obj _ => Except.error PyErr.typeError

/-- Model of Python subscription `v[0]`: lists and strings index
positionally (raising `IndexError` when empty), JSON dicts have string
keys so an integer lookup raises `KeyError`, everything else raises
`TypeError`. -/
def pyIndexZero : Json → Except PyErr Json
  | Json.arr [] => Except.error PyErr.indexError
  | Json.arr (x :: _) => Except.ok x
  | Json.str s =>
    match s.data with
    | [] => Except.error PyErr.indexError
    | c :: _ => Except.ok (Json.str (String.mk [c]))
  | Json.obj _ => Except.error PyErr.keyError
  | _ => Except.error PyErr.typeError

/-- Model of Python truthiness `not data` on a parsed JSON body:
`None`, `False`, `0`, `""`, `[]` and `{}` are falsy. -/
def jsonFalsy : Json → Bool
  | Json.null => true
  | Json.bool b => !b
  | Json.num q => if q = 0 then true else false
  | Json.str s => s.isEmpty
  | Json.arr xs => xs.isEmpty
  | Json.obj fs => fs.isEmpty

/-- Model of `f"{v:.2f}"`: numbers and booleans format, every other value
raises (strings a `ValueError`-style format error, the rest `TypeError`). -/
def formatF2 : Json → Except PyErr Unit
  | Json.num _ => Except.ok ()
  | Json.bool _ => Except.ok ()
  | Json.str _ => Except.error PyErr.valueError
  | _ => Except.error PyErr.typeError

/-- `response.raise_for_status()` raises `requests.exceptions.HTTPError`
exactly for 4xx and 5xx status codes. -/
def raisesForStatus (s : ℕ) : Bool := 400 ≤ s && s < 600

/-- Outcome of one `requests.get` ping against the backend health
endpoint: either an HTTP response with a status code, or a
`requests.exceptions.RequestException` (connection error / the 1s
timeout expiring). -/
inductive PingResult where
  | resp (status : ℕ)
  | netError
deriving DecidableEq, Repr

/-- Outcome of one `requests.post` to the backend invocation endpoint:
an HTTP response whose body parses as the given JSON, a transport-level
`requests.exceptions.RequestException`, or any other unexpected
exception. -/
inductive BackendResult where
  | resp (status : ℕ) (body : Json)
  | netError
  | otherError

namespace Inference

/-- The Prometheus metrics of `7.inference.py`: the
`ml_model_predictions_total` counter, the recorded observations of the
`ml_model_prediction_duration_seconds` histogram (in order), and the
`mlflow_model_serve_status` gauge (`none` while never set). -/
structure Metrics where
  predictionsTotal : ℕ
  durations : List ℚ
  serveStatus : Option ℚ
deriving Repr

/-- Counts of the outbound calls the handler has issued: invocations of
`check_mlflow_serve_health` and `requests.post` forwards to the backend. -/
structure Trace where
  healthChecks : ℕ
  forwards : ℕ
deriving DecidableEq, Repr

/-- `check_mlflow_serve_health()`: pings the backend, returns `True` iff
the ping answered with status 200, and unconditionally sets
`MLFLOW_SERVE_STATUS` to 1 or 0.  Every `RequestException` (connection
failure or the 1s timeout) is caught and yields `False`; the function
never raises. -/
def check_mlflow_serve_health (ping : PingResult) (m : Metrics) :
    Bool × Metrics :=
  match ping with
  | PingResult.resp s =>
    if s = 200 then (true, { m with serveStatus := some 1 })
    else (false, { m with serveStatus := some 0 })
  | PingResult.netError => (false, { m with serveStatus := some 0 })

/-- The body of an HTTP response produced by the `predict` handler.  Each
constructor corresponds to one `jsonify(...)` site in the source, carrying
the data interpolated into it. -/
inductive RespBody where
  /-- `jsonify(prediction_result)` — the backend's JSON body relayed. -/
  | json (j : Json)
  /-- `{"error": "MLflow model serve endpoint is unreachable or unhealthy."}` -/
  | errUnreachable
  /-- `{"error": "Invalid JSON input"}` -/
  | errInvalidInput
  /-- `{"error": f"Error from model serve: {e.response.text}"}` — carries
  the backend response body whose text is interpolated. -/
  | errFromServe (backendBody : Json)
  /-- `{"error": "Failed to connect to MLflow model serve endpoint."}` -/
  | errConnect
  /-- `{"error": str(e)}` from the catch-all `except Exception`. -/
  | errGeneric

/-- An HTTP response of the proxy: status code and body. -/
structure HttpResp where
  status : ℕ
  body : RespBody

/-- Result of one run of the `predict` handler: the client-visible
response, the metrics afterwards, and the outbound-call trace. -/
structure PredictOutcome where
  resp : HttpResp
  metrics : Metrics
  trace : Trace

/-- The `POST /predict` handler, line by line:
1. `check_mlflow_serve_health()` first; unhealthy → 503, nothing else runs;
2. `start_time = time.time()` (`startTime`), then inside `try`:
   `data = request.json` (`reqJson`; `Except.error` is the `BadRequest`
   Flask raises on an unparsable/absent body, which falls through to the
   catch-all `except Exception` → 500);
3. `if not data:` → 400;
4. `requests.post(...)` (`fwd`) followed by `raise_for_status()`:
   a 4xx/5xx answer raises `HTTPError` → backend status propagated;
   a transport `RequestException` → 503; any other exception → 500;
5. on success `PREDICTIONS_TOTAL.inc()`, then
   `PREDICTION_DURATION_SECONDS.observe(end_time - start_time)`
   (`endTime` is the second `time.time()` call), and
   `jsonify(prediction_result)` is returned with Flask's default
   status 200. -/
def predict (ping : PingResult) (reqJson : Except PyErr Json)
    (fwd : BackendResult) (startTime endTime : ℚ)
    (m : Metrics) (tr : Trace) : PredictOutcome :=
  let hc := check_mlflow_serve_health ping m
  let m1 := hc.2
  let tr1 : Trace := { tr with healthChecks := tr.healthChecks + 1 }
  if !hc.1 then
    { resp := ⟨503, RespBody.errUnreachable⟩, metrics := m1, trace := tr1 }
  else
    match reqJson with
    | Except.error _ =>
      { resp := ⟨500, RespBody.errGeneric⟩, metrics := m1, trace := tr1 }
    | Except.ok data =>
      if jsonFalsy data then
        { resp := ⟨400, RespBody.errInvalidInput⟩, metrics := m1, trace := tr1 }
      else
        let tr2 : Trace := { tr1 with forwards := tr1.forwards + 1 }
        match fwd with
        | BackendResult.resp s body =>
          if raisesForStatus s then
            { resp := ⟨s, RespBody.errFromServe body⟩, metrics := m1, trace := tr2 }
          else
            let m2 : Metrics :=
              { m1 with
                predictionsTotal := m1.predictionsTotal + 1
                durations := m1.durations ++ [endTime - startTime] }
            { resp := ⟨200, RespBody.json body⟩, metrics := m2, trace := tr2 }
        | BackendResult.netError =>
          { resp := ⟨503, RespBody.errConnect⟩, metrics := m1, trace := tr2 }
        | BackendResult.otherError =>
          { resp := ⟨500, RespBody.errGeneric⟩, metrics := m1, trace := tr2 }

/-- Result of the `GET /metrics` handler: the `generate_latest()`
snapshot, the 200 status, and the state afterwards. -/
structure MetricsOutcome where
  snapshot : Metrics
  status : ℕ
  metrics : Metrics
  trace : Trace

/-- The `GET /metrics` handler: calls `check_mlflow_serve_health()` for
its side effect, then returns `generate_latest(), 200` — a snapshot of
the metrics as they stand after that fresh check. -/
def metricsRoute (ping : PingResult) (m : Metrics) (tr : Trace) :
    MetricsOutcome :=
  let hc := check_mlflow_serve_health ping m
  { snapshot := hc.2, status := 200, metrics := hc.2
    trace := { tr with healthChecks := tr.healthChecks + 1 } }

/-- Result of the `GET /health` handler: plaintext body, status, and the
state afterwards. -/
structure HealthOutcome where
  text : String
  status : ℕ
  metrics : Metrics
  trace : Trace

/-- The `GET /health` handler: 200 with a "reachable" message when
`check_mlflow_serve_health()` returns `True`, else 503 "unreachable". -/
def health_check (ping : PingResult) (m : Metrics) (tr : Trace) :
    HealthOutcome :=
  let hc := check_mlflow_serve_health ping m
  let tr1 : Trace := { tr with healthChecks := tr.healthChecks + 1 }
  if hc.1 then
    { text := "MLflow model serve endpoint is reachable", status := 200
      metrics := hc.2, trace := tr1 }
  else
    { text := "MLflow model serve endpoint is unreachable", status := 503
      metrics := hc.2, trace := tr1 }

end Inference

namespace Exporter

/-- The Prometheus gauges of `3.prometheus_exporter.py`:
`ml_model_last_prediction_value`, `ml_exporter_prediction_latency_ms`,
and `mlflow_model_serve_status_exporter` (`none` while never set). -/
structure ExpMetrics where
  lastPrediction : Option ℚ
  latencyMs : Option ℚ
  serveStatusExporter : Option ℚ
deriving Repr

/-- Outcome of the `dummy_input.json` loading block at the top of
`get_sample_prediction_from_api`: the file may be absent (the
hardcoded fallback is assigned but the function still returns
`None, None`), its content may fail to parse (`json.JSONDecodeError`),
any other exception may occur, or the JSON loads. -/
inductive LoadResult where
  | fileMissing
  | badJson
  | otherLoadError
  | loaded (data : Json)

/-- The request body the probe sends: `payload = {"inputs": sample_data}`. -/
def probePayload (sampleData : Json) : Json :=
  Json.obj [("inputs", sampleData)]

/-- The response-normalization block of `get_sample_prediction_from_api`:
`if isinstance(v, list): return v[0]`,
`elif isinstance(v, dict) and 'predictions' in v: return v['predictions'][0]`,
`else: return float(v)`.  Any exception raised inside a branch
(index/type/value errors) surfaces as `Except.error`, to be caught by the
function's `except Exception` clause. -/
def normalize_prediction (v : Json) : Except PyErr Json :=
  match v with
  | Json.arr xs => pyIndexZero (Json.arr xs)
  | Json.obj fields =>
    match fields.lookup "predictions" with
    | some pv => pyIndexZero pv
    | none => Except.map Json.num (pyFloat (Json.obj fields))
  | other => Except.map Json.num (pyFloat other)

/-- Result of one call to `get_sample_prediction_from_api`: the returned
`(prediction, latency_ms)` pair (`none, none` on failure) and the gauges
afterwards. -/
structure ProbeOutcome where
  prediction : Option Json
  latency : Option ℚ
  metrics : ExpMetrics

/-- `get_sample_prediction_from_api()`, line by line:
1. the `dummy_input.json` block (`load`): on any load failure it returns
   `None, None` before any network call, so no gauge is touched;
2. `start_time = time.time()` (`startTime`), `requests.post(...)` (`fwd`),
   `raise_for_status()`: a 4xx/5xx answer raises `HTTPError`, which is a
   `RequestException`, so the handler sets
   `MLFLOW_SERVE_STATUS_EXPORTER` to 0 and returns `None, None`; a
   transport `RequestException` does the same; any other exception falls
   to `except Exception`, which touches no gauge;
3. on an accepted response: `latency_ms = (time.time() - start_time) *
   1000` (`endTime` is the second clock read),
   `MLFLOW_SERVE_STATUS_EXPORTER.set(1)`, then the normalization block;
   a normalization error is caught by `except Exception`, returning
   `None, None` with the status gauge still at 1. -/
def get_sample_prediction_from_api (load : LoadResult) (fwd : BackendResult)
    (startTime endTime : ℚ) (g : ExpMetrics) : ProbeOutcome :=
  match load with
  | LoadResult.fileMissing => ⟨none, none, g⟩
  | LoadResult.badJson => ⟨none, none, g⟩
  | LoadResult.otherLoadError => ⟨none, none, g⟩
  | LoadResult.loaded _ =>
    match fwd with
    | BackendResult.resp s body =>
      if raisesForStatus s then
        ⟨none, none, { g with serveStatusExporter := some 0 }⟩
      else
        let latencyMs := (endTime - startTime) * 1000
        let g1 : ExpMetrics := { g with serveStatusExporter := some 1 }
        match normalize_prediction body with
        | Except.ok p => ⟨some p, some latencyMs, g1⟩
        | Except.error _ => ⟨none, none, g1⟩
    | BackendResult.netError =>
      ⟨none, none, { g with serveStatusExporter := some 0 }⟩
    | BackendResult.otherError => ⟨none, none, g⟩

/-- The oracle inputs of one iteration of the `while True:` loop. -/
structure TickInput where
  load : LoadResult
  fwd : BackendResult
  startTime : ℚ
  endTime : ℚ

/-- One iteration of the `while True:` loop in `__main__`:
`prediction, latency = get_sample_prediction_from_api()`; if the
prediction is not `None`, `LAST_PREDICTION_VALUE.set(prediction)` (which
is `float(prediction)` inside `prometheus_client` and raises on a
non-numeric value, leaving both gauges untouched), then
`LATENCY_EXPORTER.set(latency)` (latency is always a float here), then
`print(f"... {prediction:.2f}, ... {latency:.2f}ms")` (which raises on a
non-`.2f`-formattable prediction, after the gauges were already set).
An `Except.error` is an exception escaping the loop body — the process
dies. -/
def runTick (inp : TickInput) (g : ExpMetrics) :
    Except (PyErr × ExpMetrics) ExpMetrics :=
  let o := get_sample_prediction_from_api inp.load inp.fwd
    inp.startTime inp.endTime g
  match o.prediction with
  | none => Except.ok o.metrics
  | some p =>
    match pyFloat p with
    | Except.error e => Except.error (e, o.metrics)
    | Except.ok pv =>
      let g1 : ExpMetrics :=
        { o.metrics with
          lastPrediction := some pv
          latencyMs := some (o.latency.getD 0) }
      match formatF2 p with
      | Except.error e => Except.error (e, g1)
      | Except.ok _ => Except.ok g1

/-- The `while True:` loop, run over a finite prefix of tick inputs: an
uncaught exception in one iteration aborts all later iterations. -/
def runLoop : List TickInput → ExpMetrics →
    Except (PyErr × ExpMetrics) ExpMetrics
  | [], g => Except.ok g
  | i :: rest, g =>
    match runTick i g with
    | Except.ok g1 => runLoop rest g1
    | Except.error e => Except.error e

/-- The `(prediction, latency)` pair returned by the probe does not
depend on the current gauge values, only on the oracle inputs; this is
the probe outcome computed from blank gauges. -/
def probePrediction (i : TickInput) : Option Json :=
  (get_sample_prediction_from_api i.load i.fwd i.startTime i.endTime
    ⟨none, none, none⟩).prediction

/-- A tick whose probe outcome is `None` or a numeric value — the shapes
for which the loop body's gauge updates and format string are safe. -/
def numericPrediction : Option Json → Bool
  | none => true
  | some (Json.num _) => true
  | some (Json.bool _) => true
  | some _ => false

end Exporter

/-- A forward attempt that the `predict` handler treats as successful:
an HTTP response whose status does not make `raise_for_status()` raise. -/
def forwardSucceeds : BackendResult → Bool
  | BackendResult.resp s _ => !raisesForStatus s
  | BackendResult.netError => false
  | BackendResult.otherError => false

namespace Inference

theorem check_fst_eq (ping : PingResult) (m : Metrics) :
    (check_mlflow_serve_health ping m).1 =
      decide (ping = PingResult.resp 200) := by
  cases ping with
  | resp s =>
    by_cases hs : s = 200
    · subst hs; simp [check_mlflow_serve_health]
    · simp [check_mlflow_serve_health, hs]
  | netError => simp [check_mlflow_serve_health]

theorem check_preserves_counter (ping : PingResult) (m : Metrics) :
    (check_mlflow_serve_health ping m).2.predictionsTotal =
      m.predictionsTotal := by
  cases ping with
  | resp s =>
    by_cases hs : s = 200 <;> simp [check_mlflow_serve_health, hs]
  | netError => simp [check_mlflow_serve_health]

theorem check_preserves_durations (ping : PingResult) (m : Metrics) :
    (check_mlflow_serve_health ping m).2.durations = m.durations := by
  cases ping with
  | resp s =>
    by_cases hs : s = 200 <;> simp [check_mlflow_serve_health, hs]
  | netError => simp [check_mlflow_serve_health]

theorem check_sets_gauge (ping : PingResult) (m : Metrics) :
    (check_mlflow_serve_health ping m).2.serveStatus =
      some (if (check_mlflow_serve_health ping m).1 then 1 else 0) := by
  cases ping with
  | resp s =>
    by_cases hs : s = 200 <;> simp [check_mlflow_serve_health, hs]
  | netError => simp [check_mlflow_serve_health]

end Inference

open Inference Exporter in
/-- C1 counterexample: for the `POST /predict` request with an empty
(falsy) JSON body arriving while the backend ping fails, the handler
responds 503 (not 400) and the health checker has been invoked once (not
never): in the source, `check_mlflow_serve_health()` runs before the body
is ever inspected. -/
theorem C1_counterexample :
    (Inference.predict PingResult.netError (Except.ok Json.null)
        BackendResult.netError 0 0 ⟨0, [], none⟩ ⟨0, 0⟩).resp.status ≠ 400 ∧
    (Inference.predict PingResult.netError (Except.ok Json.null)
        BackendResult.netError 0 0 ⟨0, [], none⟩ ⟨0, 0⟩).resp.status = 503 ∧
    (Inference.predict PingResult.netError (Except.ok Json.null)
        BackendResult.netError 0 0 ⟨0, [], none⟩ ⟨0, 0⟩).trace.healthChecks
      = 1 := by
  refine ⟨by decide, rfl, rfl⟩

/-- C1 (amended): the handler invokes the backend health checker exactly
once on every `POST /predict` request, before body validation — the check
is never bypassed.  For a request whose body is empty/falsy or
unparsable, no forward is attempted, and the status is: 503 when the
health check fails; otherwise 500 for an unparsable body (the
`BadRequest` raised by `request.json` lands in the catch-all handler) and
400 for a parsable but falsy body. -/
theorem C1_amended_health_first (ping : PingResult)
    (reqJson : Except PyErr Json) (fwd : BackendResult) (t0 t1 : ℚ)
    (m : Inference.Metrics) (tr : Inference.Trace)
    (hbody : (∃ e, reqJson = Except.error e) ∨
      ∃ d, reqJson = Except.ok d ∧ jsonFalsy d = true) :
    (Inference.predict ping reqJson fwd t0 t1 m tr).trace.healthChecks
        = tr.healthChecks + 1 ∧
    (Inference.predict ping reqJson fwd t0 t1 m tr).trace.forwards
        = tr.forwards ∧
    (Inference.predict ping reqJson fwd t0 t1 m tr).resp.status =
      (if (Inference.check_mlflow_serve_health ping m).1 then
        (match reqJson with
         | Except.error _ => 500
         | Except.ok _ => 400)
      else 503) := by
  cases hh : (Inference.check_mlflow_serve_health ping m).1 with
  | true =>
    rcases hbody with ⟨e, he⟩ | ⟨d, hd, hfalsy⟩
    · subst he; simp [Inference.predict, hh]
    · subst hd; simp [Inference.predict, hh, hfalsy]
  | false =>
    rcases hbody with ⟨e, he⟩ | ⟨d, hd, _⟩ <;> subst_vars <;>
      simp [Inference.predict, hh]

/-- C1 amended witness: a healthy ping with the falsy body `null` gets
400, one health-checker invocation, and no forward. -/
theorem C1_amended_health_first_witness :
    (Inference.predict (PingResult.resp 200) (Except.ok Json.null)
        BackendResult.netError 0 0 ⟨0, [], none⟩ ⟨0, 0⟩).trace.healthChecks
      = 1 ∧
    (Inference.predict (PingResult.resp 200) (Except.ok Json.null)
        BackendResult.netError 0 0 ⟨0, [], none⟩ ⟨0, 0⟩).trace.forwards
      = 0 ∧
    (Inference.predict (PingResult.resp 200) (Except.ok Json.null)
        BackendResult.netError 0 0 ⟨0, [], none⟩ ⟨0, 0⟩).resp.status
      = 400 := by
  have h := C1_amended_health_first (PingResult.resp 200)
    (Except.ok Json.null) BackendResult.netError 0 0 ⟨0, [], none⟩ ⟨0, 0⟩
    (Or.inr ⟨Json.null, rfl, rfl⟩)
  exact ⟨h.1, h.2.1, by rw [h.2.2]; rfl⟩

/-- C2: whenever the health check reports the backend unreachable, the
`POST /predict` handler responds 503, attempts no forward, does not
increment `PREDICTIONS_TOTAL`, and records no observation in
`PREDICTION_DURATION_SECONDS`. -/
theorem C2_unhealthy_fails_fast (ping : PingResult)
    (reqJson : Except PyErr Json) (fwd : BackendResult) (t0 t1 : ℚ)
    (m : Inference.Metrics) (tr : Inference.Trace)
    (h : (Inference.check_mlflow_serve_health ping m).1 = false) :
    (Inference.predict ping reqJson fwd t0 t1 m tr).resp.status = 503 ∧
    (Inference.predict ping reqJson fwd t0 t1 m tr).resp.body
        = Inference.RespBody.errUnreachable ∧
    (Inference.predict ping reqJson fwd t0 t1 m tr).trace.forwards
        = tr.forwards ∧
    (Inference.predict ping reqJson fwd t0 t1 m
        tr).metrics.predictionsTotal = m.predictionsTotal ∧
    (Inference.predict ping reqJson fwd t0 t1 m tr).metrics.durations
        = m.durations := by
  simp [Inference.predict, h, Inference.check_preserves_counter,
    Inference.check_preserves_durations]

/-- C2 witness: a failed ping with a well-formed body and a backend that
would have answered. -/
theorem C2_unhealthy_fails_fast_witness :
    (Inference.predict PingResult.netError (Except.ok (Json.num 1))
        (BackendResult.resp 200 (Json.num 5)) 0 1 ⟨3, [2], some 1⟩
        ⟨0, 0⟩).resp.status = 503 ∧
    (Inference.predict PingResult.netError (Except.ok (Json.num 1))
        (BackendResult.resp 200 (Json.num 5)) 0 1 ⟨3, [2], some 1⟩
        ⟨0, 0⟩).metrics.predictionsTotal = 3 ∧
    (Inference.predict PingResult.netError (Except.ok (Json.num 1))
        (BackendResult.resp 200 (Json.num 5)) 0 1 ⟨3, [2], some 1⟩
        ⟨0, 0⟩).metrics.durations = [2] := by
  have h := C2_unhealthy_fails_fast PingResult.netError
    (Except.ok (Json.num 1)) (BackendResult.resp 200 (Json.num 5)) 0 1
    ⟨3, [2], some 1⟩ ⟨0, 0⟩ rfl
  exact ⟨h.1, h.2.2.2.1, h.2.2.2.2⟩

/-- C3: for a health-checked, validated request, a successful forward
increments `PREDICTIONS_TOTAL` by exactly 1 and appends exactly one
observation `end_time - start_time ≥ 0` to the duration histogram; a
failed forward (HTTP error status, transport error, or any other error)
leaves both the counter and the histogram unchanged. -/
theorem C3_counter_and_histogram (ping : PingResult) (d : Json)
    (fwd : BackendResult) (t0 t1 : ℚ) (m : Inference.Metrics)
    (tr : Inference.Trace)
    (hh : (Inference.check_mlflow_serve_health ping m).1 = true)
    (hd : jsonFalsy d = false) (ht : t0 ≤ t1) :
    (forwardSucceeds fwd = true →
      (Inference.predict ping (Except.ok d) fwd t0 t1 m
          tr).metrics.predictionsTotal = m.predictionsTotal + 1 ∧
      (Inference.predict ping (Except.ok d) fwd t0 t1 m
          tr).metrics.durations = m.durations ++ [t1 - t0] ∧
      0 ≤ t1 - t0) ∧
    (forwardSucceeds fwd = false →
      (Inference.predict ping (Except.ok d) fwd t0 t1 m
          tr).metrics.predictionsTotal = m.predictionsTotal ∧
      (Inference.predict ping (Except.ok d) fwd t0 t1 m
          tr).metrics.durations = m.durations) := by
  cases fwd with
  | resp s b =>
    by_cases hs : raisesForStatus s = true
    · constructor
      · intro hsucc
        simp [forwardSucceeds, hs] at hsucc
      · intro _
        simp [Inference.predict, hh, hd, hs,
          Inference.check_preserves_counter,
          Inference.check_preserves_durations]
    · have hs0 : raisesForStatus s = false := by
        revert hs; cases raisesForStatus s <;> simp
      constructor
      · intro _
        refine ⟨?_, ?_, sub_nonneg.mpr ht⟩ <;>
          simp [Inference.predict, hh, hd, hs0,
            Inference.check_preserves_counter,
            Inference.check_preserves_durations]
      · intro hfail
        simp [forwardSucceeds, hs0] at hfail
  | netError =>
    constructor
    · intro hsucc; simp [forwardSucceeds] at hsucc
    · intro _
      simp [Inference.predict, hh, hd,
        Inference.check_preserves_counter,
        Inference.check_preserves_durations]
  | otherError =>
    constructor
    · intro hsucc; simp [forwardSucceeds] at hsucc
    · intro _
      simp [Inference.predict, hh, hd,
        Inference.check_preserves_counter,
        Inference.check_preserves_durations]

/-- C3 witness: a healthy ping, truthy body, backend answering 200 with
timestamps 0 and 1 — the counter goes 3 → 4 and the histogram gains the
single observation 1; and the same request against a connection failure
keeps the counter at 3. -/
theorem C3_counter_and_histogram_witness :
    (Inference.predict (PingResult.resp 200) (Except.ok (Json.num 1))
        (BackendResult.resp 200 (Json.num 5)) 0 1 ⟨3, [2], none⟩
        ⟨0, 0⟩).metrics.predictionsTotal = 4 ∧
    (Inference.predict (PingResult.resp 200) (Except.ok (Json.num 1))
        (BackendResult.resp 200 (Json.num 5)) 0 1 ⟨3, [2], none⟩
        ⟨0, 0⟩).metrics.durations = [2, 1] ∧
    (Inference.predict (PingResult.resp 200) (Except.ok (Json.num 1))
        BackendResult.netError 0 1 ⟨3, [2], none⟩
        ⟨0, 0⟩).metrics.predictionsTotal = 3 := by
  have hOk := C3_counter_and_histogram (PingResult.resp 200) (Json.num 1)
    (BackendResult.resp 200 (Json.num 5)) 0 1 ⟨3, [2], none⟩ ⟨0, 0⟩
    rfl rfl (by norm_num)
  have hFail := C3_counter_and_histogram (PingResult.resp 200) (Json.num 1)
    BackendResult.netError 0 1 ⟨3, [2], none⟩ ⟨0, 0⟩
    rfl rfl (by norm_num)
  refine ⟨(hOk.1 rfl).1, ?_, (hFail.2 rfl).1⟩
  have h2 := (hOk.1 rfl).2.1
  simpa using h2

/-- C4: for every forward attempt of a health-checked, validated request,
the outcome classification is exhaustive and mutually exclusive: a
transport-level connection failure yields 503 with the fixed
connection-error body (which carries no backend data), a backend 4xx/5xx
response yields the backend's own status code with its body interpolated
into the error message, and any other unexpected failure yields 500. -/
theorem C4_error_taxonomy (ping : PingResult) (d : Json)
    (fwd : BackendResult) (t0 t1 : ℚ) (m : Inference.Metrics)
    (tr : Inference.Trace)
    (hh : (Inference.check_mlflow_serve_health ping m).1 = true)
    (hd : jsonFalsy d = false) :
    (fwd = BackendResult.netError →
      (Inference.predict ping (Except.ok d) fwd t0 t1 m tr).resp.status
          = 503 ∧
      (Inference.predict ping (Except.ok d) fwd t0 t1 m tr).resp.body
          = Inference.RespBody.errConnect) ∧
    (∀ s b, fwd = BackendResult.resp s b → raisesForStatus s = true →
      (Inference.predict ping (Except.ok d) fwd t0 t1 m tr).resp.status
          = s ∧
      (Inference.predict ping (Except.ok d) fwd t0 t1 m tr).resp.body
          = Inference.RespBody.errFromServe b) ∧
    (fwd = BackendResult.otherError →
      (Inference.predict ping (Except.ok d) fwd t0 t1 m tr).resp.status
          = 500 ∧
      (Inference.predict ping (Except.ok d) fwd t0 t1 m tr).resp.body
          = Inference.RespBody.errGeneric) ∧
    (∀ b, Inference.RespBody.errConnect ≠
      Inference.RespBody.errFromServe b) := by
  refine ⟨?_, ?_, ?_, ?_⟩
  · rintro rfl
    exact ⟨by simp [Inference.predict, hh, hd],
      by simp [Inference.predict, hh, hd]⟩
  · rintro s b rfl hs
    exact ⟨by simp [Inference.predict, hh, hd, hs],
      by simp [Inference.predict, hh, hd, hs]⟩
  · rintro rfl
    exact ⟨by simp [Inference.predict, hh, hd],
      by simp [Inference.predict, hh, hd]⟩
  · intro b h
    cases h

/-- C4 witness: with a healthy ping and truthy body, a backend 422
answer is relayed as 422 with the backend body in the error message. -/
theorem C4_error_taxonomy_witness :
    (Inference.predict (PingResult.resp 200) (Except.ok (Json.num 1))
        (BackendResult.resp 422 (Json.str "bad input")) 0 1 ⟨0, [], none⟩
        ⟨0, 0⟩).resp.status = 422 ∧
    (Inference.predict (PingResult.resp 200) (Except.ok (Json.num 1))
        (BackendResult.resp 422 (Json.str "bad input")) 0 1 ⟨0, [], none⟩
        ⟨0, 0⟩).resp.body
      = Inference.RespBody.errFromServe (Json.str "bad input") := by
  have h := C4_error_taxonomy (PingResult.resp 200) (Json.num 1)
    (BackendResult.resp 422 (Json.str "bad input")) 0 1 ⟨0, [], none⟩
    ⟨0, 0⟩ rfl rfl
  exact h.2.1 422 (Json.str "bad input") rfl rfl

/-- C5 counterexample: a successful forward answered by the backend with
status 201 reaches the client with status 200 — `jsonify(result)` is
returned without a status, so Flask's default 200 replaces the backend's
own success status, contradicting "the backend's status unchanged". -/
theorem C5_counterexample :
    (Inference.predict (PingResult.resp 200) (Except.ok (Json.num 1))
        (BackendResult.resp 201 (Json.num 5)) 0 1 ⟨0, [], none⟩
        ⟨0, 0⟩).resp.status = 200 ∧
    (Inference.predict (PingResult.resp 200) (Except.ok (Json.num 1))
        (BackendResult.resp 201 (Json.num 5)) 0 1 ⟨0, [], none⟩
        ⟨0, 0⟩).resp.status ≠ 201 := by
  exact ⟨rfl, by decide⟩

/-- C5 (amended): for every successful forward the client receives the
backend's JSON body unchanged — whatever its shape, with no
normalization on the proxy path — but always under status 200, Flask's
default, rather than the backend's own success status. -/
theorem C5_amended_raw_body_status_200 (ping : PingResult) (d : Json)
    (s : ℕ) (b : Json) (t0 t1 : ℚ) (m : Inference.Metrics)
    (tr : Inference.Trace)
    (hh : (Inference.check_mlflow_serve_health ping m).1 = true)
    (hd : jsonFalsy d = false) (hs : raisesForStatus s = false) :
    (Inference.predict ping (Except.ok d) (BackendResult.resp s b) t0 t1 m
        tr).resp.status = 200 ∧
    (Inference.predict ping (Except.ok d) (BackendResult.resp s b) t0 t1 m
        tr).resp.body = Inference.RespBody.json b := by
  constructor <;> simp [Inference.predict, hh, hd, hs]

/-- C5 amended witness: backend status 201 with an unrecognized-shape
body is relayed as-is under status 200. -/
theorem C5_amended_raw_body_status_200_witness :
    (Inference.predict (PingResult.resp 200) (Except.ok (Json.num 1))
        (BackendResult.resp 201 (Json.obj [("weird", Json.null)])) 0 1
        ⟨0, [], none⟩ ⟨0, 0⟩).resp.status = 200 ∧
    (Inference.predict (PingResult.resp 200) (Except.ok (Json.num 1))
        (BackendResult.resp 201 (Json.obj [("weird", Json.null)])) 0 1
        ⟨0, [], none⟩ ⟨0, 0⟩).resp.body
      = Inference.RespBody.json (Json.obj [("weird", Json.null)]) := by
  exact C5_amended_raw_body_status_200 (PingResult.resp 200) (Json.num 1)
    201 (Json.obj [("weird", Json.null)]) 0 1 ⟨0, [], none⟩ ⟨0, 0⟩
    rfl rfl rfl

/-- C6: the exporter's response normalization follows the stated
precedence and is total: a non-empty sequence normalizes to its element
0; a structured object whose `predictions` field holds a non-empty
sequence normalizes to that field's element 0; a bare number normalizes
to itself; `[7.2]`, `{"predictions": [7.2]}` and `7.2` all normalize to
`7.2`; and a shape matching none of the cases (such as `null`) is a
caught normalization error — the probe returns `None` instead of letting
the exception escape. -/
theorem C6_normalization_precedence :
    Exporter.normalize_prediction (Json.arr [Json.num (7.2 : ℚ)])
        = Except.ok (Json.num (7.2 : ℚ)) ∧
    Exporter.normalize_prediction
        (Json.obj [("predictions", Json.arr [Json.num (7.2 : ℚ)])])
        = Except.ok (Json.num (7.2 : ℚ)) ∧
    Exporter.normalize_prediction (Json.num (7.2 : ℚ))
        = Except.ok (Json.num (7.2 : ℚ)) ∧
    (∀ x xs, Exporter.normalize_prediction (Json.arr (x :: xs))
        = Except.ok x) ∧
    (∀ x xs rest, Exporter.normalize_prediction
        (Json.obj (("predictions", Json.arr (x :: xs)) :: rest))
        = Except.ok x) ∧
    (∀ q, Exporter.normalize_prediction (Json.num q)
        = Except.ok (Json.num q)) ∧
    Exporter.normalize_prediction Json.null
        = Except.error PyErr.typeError ∧
    (Exporter.get_sample_prediction_from_api
        (Exporter.LoadResult.loaded (Json.arr []))
        (BackendResult.resp 200 Json.null) 0 1
        ⟨none, none, none⟩).prediction = none := by
  refine ⟨rfl, rfl, rfl, ?_, ?_, ?_, rfl, rfl⟩
  · intro x xs
    simp [Exporter.normalize_prediction, pyIndexZero]
  · intro x xs rest
    simp [Exporter.normalize_prediction, List.lookup, pyIndexZero]
  · intro q
    simp [Exporter.normalize_prediction, pyFloat, Except.map]

/-- C7: `check_mlflow_serve_health()` returns `True` iff the backend's
ping endpoint answered 200 within the 1s timeout (every network error,
timeout, or non-200 status yields `False`, and the function never raises
— all `RequestException`s are caught); it unconditionally sets the
`MLFLOW_SERVE_STATUS` gauge to the boolean result, touching no other
metric; and `GET /health` answers 200 with the "reachable" message
exactly when it returns `True`, 503 with the "unreachable" message
otherwise. -/
theorem C7_health_checker (ping : PingResult) (m : Inference.Metrics)
    (tr : Inference.Trace) :
    ((Inference.check_mlflow_serve_health ping m).1 = true ↔
        ping = PingResult.resp 200) ∧
    (Inference.check_mlflow_serve_health ping m).2.serveStatus =
      some (if (Inference.check_mlflow_serve_health ping m).1 then 1
        else 0) ∧
    (Inference.check_mlflow_serve_health ping m).2.predictionsTotal
        = m.predictionsTotal ∧
    (Inference.check_mlflow_serve_health ping m).2.durations
        = m.durations ∧
    (Inference.health_check ping m tr).status =
      (if (Inference.check_mlflow_serve_health ping m).1 then 200
        else 503) ∧
    (Inference.health_check ping m tr).text =
      (if (Inference.check_mlflow_serve_health ping m).1 then
        "MLflow model serve endpoint is reachable"
      else "MLflow model serve endpoint is unreachable") := by
  refine ⟨?_, Inference.check_sets_gauge ping m,
    Inference.check_preserves_counter ping m,
    Inference.check_preserves_durations ping m, ?_, ?_⟩
  · rw [Inference.check_fst_eq]
    simp
  · cases hh : (Inference.check_mlflow_serve_health ping m).1 <;>
      simp [Inference.health_check, hh]
  · cases hh : (Inference.check_mlflow_serve_health ping m).1 <;>
      simp [Inference.health_check, hh]

/-- C8 counterexample: a probe tick that fails to load
`dummy_input.json` returns before any network call, so with the
reachability gauge previously at 1 it stays at 1 — it is not driven to
unreachable, contradicting the claim that every failed tick drives
`BackendStatus` to unreachable. -/
theorem C8_counterexample :
    (Exporter.get_sample_prediction_from_api Exporter.LoadResult.fileMissing
        BackendResult.netError 0 1
        ⟨some 9, some 9, some 1⟩).metrics.serveStatusExporter = some 1 ∧
    (Exporter.get_sample_prediction_from_api Exporter.LoadResult.fileMissing
        BackendResult.netError 0 1
        ⟨some 9, some 9, some 1⟩).metrics.serveStatusExporter ≠ some 0 := by
  exact ⟨rfl, by decide⟩

/-- C8 (amended): on every failed probe tick the last-sample-prediction
and probe-latency gauges retain their prior values, but the reachability
gauge is driven to 0 only when the backend call itself fails (transport
error or 4xx/5xx answer): a sample-load failure returns before any
network call and touches no gauge, an accepted response that fails
normalization leaves the gauge at the 1 written just before
normalization, and any other unexpected error touches no gauge. -/
theorem C8_amended_gauge_behaviour (load : Exporter.LoadResult)
    (fwd : BackendResult) (t0 t1 : ℚ) (g : Exporter.ExpMetrics)
    (hfail : (Exporter.get_sample_prediction_from_api load fwd t0 t1
        g).prediction = none) :
    (Exporter.get_sample_prediction_from_api load fwd t0 t1
        g).metrics.lastPrediction = g.lastPrediction ∧
    (Exporter.get_sample_prediction_from_api load fwd t0 t1
        g).metrics.latencyMs = g.latencyMs ∧
    ((load = Exporter.LoadResult.fileMissing ∨
      load = Exporter.LoadResult.badJson ∨
      load = Exporter.LoadResult.otherLoadError) →
      (Exporter.get_sample_prediction_from_api load fwd t0 t1
        g).metrics = g) ∧
    (∀ d, load = Exporter.LoadResult.loaded d →
      fwd = BackendResult.netError →
      (Exporter.get_sample_prediction_from_api load fwd t0 t1
        g).metrics.serveStatusExporter = some 0) ∧
    (∀ d s b, load = Exporter.LoadResult.loaded d →
      fwd = BackendResult.resp s b → raisesForStatus s = true →
      (Exporter.get_sample_prediction_from_api load fwd t0 t1
        g).metrics.serveStatusExporter = some 0) ∧
    (∀ d s b, load = Exporter.LoadResult.loaded d →
      fwd = BackendResult.resp s b → raisesForStatus s = false →
      (Exporter.get_sample_prediction_from_api load fwd t0 t1
        g).metrics.serveStatusExporter = some 1) ∧
    (∀ d, load = Exporter.LoadResult.loaded d →
      fwd = BackendResult.otherError →
      (Exporter.get_sample_prediction_from_api load fwd t0 t1
        g).metrics = g) := by
  have hLast : (Exporter.get_sample_prediction_from_api load fwd t0 t1
      g).metrics.lastPrediction = g.lastPrediction := by
    cases load with
    | loaded d =>
      cases fwd with
      | resp s b =>
        by_cases hs : raisesForStatus s = true
        · simp [Exporter.get_sample_prediction_from_api, hs]
        · cases hn : Exporter.normalize_prediction b <;>
            simp [Exporter.get_sample_prediction_from_api, hs, hn]
      | netError => rfl
      | otherError => rfl
    | fileMissing => rfl
    | badJson => rfl
    | otherLoadError => rfl
  have hLat : (Exporter.get_sample_prediction_from_api load fwd t0 t1
      g).metrics.latencyMs = g.latencyMs := by
    cases load with
    | loaded d =>
      cases fwd with
      | resp s b =>
        by_cases hs : raisesForStatus s = true
        · simp [Exporter.get_sample_prediction_from_api, hs]
        · cases hn : Exporter.normalize_prediction b <;>
            simp [Exporter.get_sample_prediction_from_api, hs, hn]
      | netError => rfl
      | otherError => rfl
    | fileMissing => rfl
    | badJson => rfl
    | otherLoadError => rfl
  refine ⟨hLast, hLat, ?_, ?_, ?_, ?_, ?_⟩
  · rintro (rfl | rfl | rfl) <;> rfl
  · rintro d rfl rfl; rfl
  · rintro d s b rfl rfl hs
    simp [Exporter.get_sample_prediction_from_api, hs]
  · rintro d s b rfl rfl hs
    rw [Exporter.get_sample_prediction_from_api] at hfail ⊢
    simp only [hs] at hfail ⊢
    cases hn : Exporter.normalize_prediction b <;> simp [hn] at hfail ⊢
  · rintro d rfl rfl; rfl

/-- C8 amended witness: a tick whose sample-input file is missing leaves
all three gauges exactly as they were. -/
theorem C8_amended_gauge_behaviour_witness :
    (Exporter.get_sample_prediction_from_api Exporter.LoadResult.fileMissing
        BackendResult.netError 0 1
        ⟨some 9, some 8, some 1⟩).metrics
      = (⟨some 9, some 8, some 1⟩ : Exporter.ExpMetrics) := by
  have h := C8_amended_gauge_behaviour Exporter.LoadResult.fileMissing
    BackendResult.netError 0 1 ⟨some 9, some 8, some 1⟩ rfl
  exact h.2.2.1 (Or.inl rfl)

theorem probe_prediction_const (i : Exporter.TickInput)
    (g : Exporter.ExpMetrics) :
    (Exporter.get_sample_prediction_from_api i.load i.fwd i.startTime
        i.endTime g).prediction = Exporter.probePrediction i := by
  rw [Exporter.probePrediction]
  cases hl : i.load with
  | loaded d =>
    cases hf : i.fwd with
    | resp s b =>
      by_cases hs : raisesForStatus s = true
      · simp [Exporter.get_sample_prediction_from_api, hs]
      · cases hn : Exporter.normalize_prediction b <;>
          simp [Exporter.get_sample_prediction_from_api, hs, hn]
    | netError => rfl
    | otherError => rfl
  | fileMissing => rfl
  | badJson => rfl
  | otherLoadError => rfl

theorem runTick_benign (i : Exporter.TickInput) (g : Exporter.ExpMetrics)
    (h : Exporter.numericPrediction (Exporter.probePrediction i) = true) :
    ∃ g1, Exporter.runTick i g = Except.ok g1 := by
  have hp := probe_prediction_const i g
  cases ho : (Exporter.get_sample_prediction_from_api i.load i.fwd
      i.startTime i.endTime g).prediction with
  | none =>
    refine ⟨(Exporter.get_sample_prediction_from_api i.load i.fwd
      i.startTime i.endTime g).metrics, ?_⟩
    simp [Exporter.runTick, ho]
  | some p =>
    rw [← hp, ho] at h
    cases p with
    | num q =>
      refine ⟨{ (Exporter.get_sample_prediction_from_api i.load i.fwd
          i.startTime i.endTime g).metrics with
        lastPrediction := some q
        latencyMs := some ((Exporter.get_sample_prediction_from_api i.load
          i.fwd i.startTime i.endTime g).latency.getD 0) }, ?_⟩
      simp [Exporter.runTick, ho, pyFloat, formatF2]
    | bool b =>
      refine ⟨{ (Exporter.get_sample_prediction_from_api i.load i.fwd
          i.startTime i.endTime g).metrics with
        lastPrediction := some (if b then 1 else 0)
        latencyMs := some ((Exporter.get_sample_prediction_from_api i.load
          i.fwd i.startTime i.endTime g).latency.getD 0) }, ?_⟩
      simp [Exporter.runTick, ho, pyFloat, formatF2]
    | null => simp [Exporter.numericPrediction] at h
    | str s => simp [Exporter.numericPrediction] at h
    | arr xs => simp [Exporter.numericPrediction] at h
    | obj fs => simp [Exporter.numericPrediction] at h

/-- C9 counterexample: a backend success response `["abc"]` makes the
probe return the non-numeric prediction `"abc"`; the loop body's
`LAST_PREDICTION_VALUE.set(prediction)` then raises (`float("abc")` is a
`ValueError`), the exception escapes the tick body, and the following
tick — here a perfectly healthy one — is never run: the loop terminates
on this error. -/
theorem C9_counterexample :
    Exporter.runLoop
      [⟨Exporter.LoadResult.loaded (Json.arr []),
          BackendResult.resp 200 (Json.arr [Json.str "abc"]), 0, 1⟩,
        ⟨Exporter.LoadResult.loaded (Json.arr []),
          BackendResult.resp 200 (Json.arr [Json.num 3]), 0, 1⟩]
      ⟨none, none, none⟩
      = Except.error (PyErr.valueError, ⟨none, none, some 1⟩) := by
  rfl

/-- C9 (amended): `get_sample_prediction_from_api` itself never raises —
every load failure, backend outcome and response shape is caught and
returned as `None` — and the loop survives every tick whose probe
outcome is `None` or a numeric prediction value, however many such ticks
follow each other; but a tick whose probe returns a non-numeric
prediction (possible for backend success responses such as `["abc"]`)
raises in the loop body's gauge update and stops the loop. -/
theorem C9_amended_loop_safety (inputs : List Exporter.TickInput)
    (g : Exporter.ExpMetrics)
    (h : ∀ i ∈ inputs,
      Exporter.numericPrediction (Exporter.probePrediction i) = true) :
    ∃ gN, Exporter.runLoop inputs g = Except.ok gN := by
  induction inputs generalizing g with
  | nil => exact ⟨g, rfl⟩
  | cons i rest ih =>
    obtain ⟨g1, hg1⟩ := runTick_benign i g (h i (List.mem_cons_self i rest))
    obtain ⟨gN, hgN⟩ := ih g1 (fun j hj => h j (List.mem_cons_of_mem i hj))
    exact ⟨gN, by simp [Exporter.runLoop, hg1, hgN]⟩

/-- C9 amended witness: two ticks — a failed sample load followed by a
healthy numeric prediction — run to completion. -/
theorem C9_amended_loop_safety_witness :
    ∃ gN, Exporter.runLoop
      [⟨Exporter.LoadResult.fileMissing, BackendResult.netError, 0, 0⟩,
        ⟨Exporter.LoadResult.loaded (Json.arr []),
          BackendResult.resp 200 (Json.arr [Json.num 3]), 0, 1⟩]
      ⟨none, none, none⟩ = Except.ok gN := by
  refine C9_amended_loop_safety _ ⟨none, none, none⟩ ?_
  intro i hi
  simp only [List.mem_cons, List.mem_singleton] at hi
  rcases hi with rfl | rfl | h
  · rfl
  · rfl
  · simp at h

/-- C10: every `GET /metrics` scrape invokes the backend health checker
exactly once before taking the snapshot, so the returned snapshot is the
post-check state, its reachability gauge freshly overwritten with the
result of this scrape's own probe (1 iff the ping answered 200). -/
theorem C10_metrics_scrape_fresh_check (ping : PingResult)
    (m : Inference.Metrics) (tr : Inference.Trace) :
    (Inference.metricsRoute ping m tr).trace.healthChecks
        = tr.healthChecks + 1 ∧
    (Inference.metricsRoute ping m tr).trace.forwards = tr.forwards ∧
    (Inference.metricsRoute ping m tr).status = 200 ∧
    (Inference.metricsRoute ping m tr).snapshot
        = (Inference.metricsRoute ping m tr).metrics ∧
    (Inference.metricsRoute ping m tr).snapshot.serveStatus =
      some (if ping = PingResult.resp 200 then 1 else 0) := by
  refine ⟨rfl, rfl, rfl, rfl, ?_⟩
  have hg := Inference.check_sets_gauge ping m
  have hf := Inference.check_fst_eq ping m
  show (Inference.check_mlflow_serve_health ping m).2.serveStatus = _
  rw [hg, hf]
  by_cases hp : ping = PingResult.resp 200 <;> simp [hp]
